import Mathlib

/-!
Shallow embedding of the Telegram order-intake bot (src/bot.py, src/config.py).

Modelling conventions:
* Python floats are modelled by `PyFloat`: NaN, the two infinities, or a
  finite binary64 value carried as the exact rational it denotes.  `float()`
  parsing covers the special literals (`inf`, `infinity`, `nan`,
  case-insensitive), PEP-515 digit-group underscores, and rounds the exact
  decimal value to the nearest binary64 value with underflow to zero and
  overflow to infinity; comparisons and multiplication follow IEEE-754
  semantics (every comparison with NaN is false).
* The mail transport is a parameter `transport : Nat → Option SMTPError`
  giving the outcome of each SMTP attempt (`none` = delivered, `some e` =
  the exception raised by that attempt).
* Outbound message texts are abstracted to `Reply` tags carrying the data
  the claims talk about; keyboards are not modelled.
* The python-telegram-bot routing of `setup_handlers` (conversation states,
  per-state handler lists, entry points with `allow_reentry`, fallbacks, the
  standalone healthz handler, and the error handler) is embedded in `process`.
-/

namespace HanBot

/-- Exceptions the smtplib transport can raise: authentication failure,
connection failure, or any other exception (`other`). -/
inductive SMTPError where
  | auth
  | connect
  | other (code : Nat)
  deriving DecidableEq, Repr

/-- How `OrderService.send_notification` finished: a `return` of a boolean or
an uncaught exception. -/
inductive SendOutcome (ε : Type) where
  | returned (b : Bool)
  | raised (e : ε)
  deriving DecidableEq, Repr

/-- Observable trace of one call to `send_notification`: outcome, number of
SMTP attempts performed, and the list of backoff waits (in time units) in
order. -/
structure SendTrace (ε : Type) where
  result : SendOutcome ε
  attempts : Nat
  waits : List Nat
  deriving DecidableEq, Repr

/-- The retry loop of `OrderService.send_notification`
(`for attempt in range(retries): try ... except ...`): `attempt` is the
0-based index of the next attempt, `remaining` the number of loop iterations
left.  On success it returns `True`; on failure of the final attempt
(`attempt == retries - 1`) the exception is re-raised; otherwise the loop
waits `2 ** attempt` time units and retries. -/
def sendLoop {ε : Type} (outcome : Nat → Option ε) (retries : Nat) :
    Nat → Nat → SendTrace ε
  | attempt, 0 => ⟨SendOutcome.returned false, attempt, []⟩
  | attempt, remaining + 1 =>
    match outcome attempt with
    | none => ⟨SendOutcome.returned true, attempt + 1, []⟩
    | some e =>
      if attempt = retries - 1 then ⟨SendOutcome.raised e, attempt + 1, []⟩
      else
        let rest := sendLoop outcome retries (attempt + 1) remaining
        ⟨rest.result, rest.attempts, 2 ^ attempt :: rest.waits⟩

/-- `OrderService.send_notification` with the transport abstracted: attempt
delivery up to `retries` times (default 3). -/
def send_notification {ε : Type} (outcome : Nat → Option ε)
    (retries : Nat := 3) : SendTrace ε :=
  sendLoop outcome retries 0 retries

/-! ### Python floats (IEEE-754 binary64) -/

/-- A Python float value: NaN, the two infinities, or a finite value.  A
finite value is carried as the exact rational it denotes (every binary64
finite value is a rational); the sign of zero is not tracked (it is
unobservable through the comparisons and formatting the bot performs). -/
inductive PyFloat where
  | finite (q : ℚ)
  | inf
  | ninf
  | nan
  deriving DecidableEq, Repr

/-- Round a rational to the nearest integer, ties to even. -/
def roundHalfEven (r : ℚ) : ℤ :=
  let n := ⌊r⌋
  let frac := r - (n : ℚ)
  if frac < 1 / 2 then n
  else if 1 / 2 < frac then n + 1
  else if n % 2 = 0 then n else n + 1

/-- Round an exact rational to the nearest IEEE-754 binary64 value
(round-to-nearest, ties-to-even): normal values use a 53-bit significand at
the value's binary exponent, subnormals use the fixed scale `2 ^ (-1074)`
(so tiny values underflow to zero), and results of magnitude at least
`2 ^ 1024` overflow to the corresponding infinity. -/
def roundToDouble (q : ℚ) : PyFloat :=
  if q = 0 then PyFloat.finite 0
  else
    let a := |q|
    let e : ℤ := Int.log 2 a
    let scale : ℤ := max (e - 52) (-1074)
    let m := roundHalfEven (a / (2 : ℚ) ^ scale)
    let v : ℚ := (m : ℚ) * (2 : ℚ) ^ scale
    if (2 : ℚ) ^ (1024 : ℤ) ≤ v then
      if 0 < q then PyFloat.inf else PyFloat.ninf
    else PyFloat.finite (if 0 < q then v else -v)

/-- Python `<=` on floats: any comparison with NaN is `False`. -/
def PyFloat.le (x y : PyFloat) : Bool :=
  match x, y with
  | PyFloat.nan, _ => false
  | _, PyFloat.nan => false
  | PyFloat.ninf, _ => true
  | PyFloat.finite a, PyFloat.finite b => decide (a ≤ b)
  | PyFloat.finite _, PyFloat.inf => true
  | PyFloat.finite _, PyFloat.ninf => false
  | PyFloat.inf, PyFloat.inf => true
  | PyFloat.inf, _ => false

/-- Python `<` on floats: any comparison with NaN is `False`. -/
def PyFloat.lt (x y : PyFloat) : Bool :=
  match x, y with
  | PyFloat.nan, _ => false
  | _, PyFloat.nan => false
  | PyFloat.ninf, PyFloat.ninf => false
  | PyFloat.ninf, _ => true
  | PyFloat.finite a, PyFloat.finite b => decide (a < b)
  | PyFloat.finite _, PyFloat.inf => true
  | PyFloat.finite _, PyFloat.ninf => false
  | PyFloat.inf, _ => false

/-- Python truthiness of a float: only `0.0` (and `-0.0`) is falsy; NaN and
the infinities are truthy. -/
def PyFloat.isTruthy : PyFloat → Bool
  | PyFloat.finite q => decide (q ≠ 0)
  | _ => true

/-- Python float multiplication: NaN propagates, infinity times zero is
NaN, and a finite product is the exact product rounded once to binary64. -/
def PyFloat.mul (x y : PyFloat) : PyFloat :=
  match x, y with
  | PyFloat.nan, _ => PyFloat.nan
  | _, PyFloat.nan => PyFloat.nan
  | PyFloat.finite a, PyFloat.finite b => roundToDouble (a * b)
  | PyFloat.inf, PyFloat.inf => PyFloat.inf
  | PyFloat.inf, PyFloat.ninf => PyFloat.ninf
  | PyFloat.ninf, PyFloat.inf => PyFloat.ninf
  | PyFloat.ninf, PyFloat.ninf => PyFloat.inf
  | PyFloat.inf, PyFloat.finite b =>
    if b = 0 then PyFloat.nan else if 0 < b then PyFloat.inf else PyFloat.ninf
  | PyFloat.finite a, PyFloat.inf =>
    if a = 0 then PyFloat.nan else if 0 < a then PyFloat.inf else PyFloat.ninf
  | PyFloat.ninf, PyFloat.finite b =>
    if b = 0 then PyFloat.nan else if 0 < b then PyFloat.ninf else PyFloat.inf
  | PyFloat.finite a, PyFloat.ninf =>
    if a = 0 then PyFloat.nan else if 0 < a then PyFloat.ninf else PyFloat.inf

/-- Configuration surface used by the conversation engine (config.py):
only the exchange rate — a Python float — matters for the embedded
logic. -/
structure Config where
  exchange_rate : PyFloat
  deriving DecidableEq, Repr

/-- One entry of `Config.shipping_options` (config.py). -/
structure ShippingOption where
  price_per_kg : ℚ
  days : String
  name : String
  deriving DecidableEq, Repr

/-- The static shipping catalog `config.shipping_options`, as a partial
lookup: `none` models the `KeyError` a Python dict raises on an unknown
key.  Display names are kept without the leading emoji. -/
def shipping_options (key : String) : Option ShippingOption :=
  if key = "truck" then some ⟨0, "18-21", "Грузовик (бесплатно)"⟩
  else if key = "air" then some ⟨1300, "12-15", "Авиа"⟩
  else if key = "express" then some ⟨2500, "1-5", "Экспресс"⟩
  else none

/-- The `UserData` dataclass of bot.py. -/
structure UserData where
  user_id : ℤ
  username : String
  link : Option String := none
  price_cny : Option PyFloat := none
  shipping_method : Option String := none
  contact : Option String := none
  deriving DecidableEq, Repr

/-- The `UserData.price_rub` property:
`self.price_cny * config.exchange_rate if self.price_cny else 0`.
Python truthiness makes `None` and `0.0` produce `0`; NaN is truthy, so a
stored NaN price yields a NaN rouble price. -/
def UserData.price_rub (cfg : Config) (u : UserData) : PyFloat :=
  match u.price_cny with
  | some p => if p.isTruthy then p.mul cfg.exchange_rate else PyFloat.finite 0
  | none => PyFloat.finite 0

/-! ### String helpers modelling the Python string methods used by bot.py -/

/-- Python `str.strip()` on the character list: drop whitespace from both
ends. -/
def pyStripList (l : List Char) : List Char :=
  (l.dropWhile Char.isWhitespace).rdropWhile Char.isWhitespace

/-- Python `str.strip()`. -/
def pyStrip (s : String) : String := String.mk (pyStripList s.toList)

/-- Python `str.replace(a, b)` for single-character arguments. -/
def pyReplaceChar (s : String) (a b : Char) : String :=
  String.mk (s.toList.map fun c => if c = a then b else c)

/-- Python `str.lower()` restricted to the alphabets the bot can see:
ASCII letters and the Cyrillic range А-Я plus Ё. -/
def pyLowerChar (c : Char) : Char :=
  if 'A' ≤ c ∧ c ≤ 'Z' then Char.ofNat (c.toNat + 32)
  else if 'А' ≤ c ∧ c ≤ 'Я' then Char.ofNat (c.toNat + 32)
  else if c = 'Ё' then 'ё'
  else c

/-- Python `str.lower()`. -/
def pyLower (s : String) : String := String.mk (s.toList.map pyLowerChar)

/-- Python `str.split(sep)` for a single-character separator, on character
lists.  `"".split(sep) = [""]`, and separators at the ends produce empty
pieces, as in Python. -/
def splitOnChar (sep : Char) : List Char → List (List Char)
  | [] => [[]]
  | c :: cs =>
    let r := splitOnChar sep cs
    if c = sep then [] :: r
    else
      match r with
      | x :: xs => (c :: x) :: xs
      | [] => [[c]]

/-- Python `str.split(sep)` for a single-character separator. -/
def pySplit (s : String) (sep : Char) : List String :=
  (splitOnChar sep s.toList).map String.mk

/-! ### urllib.parse.urlparse, restricted to what handle_link inspects -/

/-- Split a character list at the first occurrence of `sep`:
`some (before, after)` or `none` when `sep` does not occur. -/
def splitFirst (sep : Char) : List Char → Option (List Char × List Char)
  | [] => none
  | c :: cs =>
    if c = sep then some ([], cs)
    else
      match splitFirst sep cs with
      | some (xs, ys) => some (c :: xs, ys)
      | none => none

/-- Characters allowed after the first character of a URL scheme. -/
def isSchemeChar (c : Char) : Bool :=
  c.isAlpha || c.isDigit || c = '+' || c = '-' || c = '.'

/-- The parts of `urllib.parse.urlparse(url)` that `handle_link` reads. -/
structure ParsedUrl where
  scheme : String
  netloc : String
  /-- `True` when urlparse raises `ValueError` (mismatched IPv6 brackets in
  the netloc). -/
  valueError : Bool
  deriving DecidableEq, Repr

/-- `urllib.parse.urlparse`, modelled for scheme and netloc extraction:
a scheme is a leading run `alpha (alpha|digit|+|-|.)*` before a colon and is
lowercased; a netloc follows a leading `//` and extends to the next
`/`, `?` or `#`; mismatched square brackets in the netloc make urlparse
raise `ValueError`. -/
def urlparse (url : String) : ParsedUrl :=
  let cs := url.toList
  let parts : String × List Char :=
    match splitFirst ':' cs with
    | some (c0 :: pre, post) =>
      if c0.isAlpha && pre.all isSchemeChar then
        (String.mk ((c0 :: pre).map Char.toLower), post)
      else ("", cs)
    | _ => ("", cs)
  match parts.2 with
  | '/' :: '/' :: r =>
    let nl := r.takeWhile fun c => !(c == '/' || c == '?' || c == '#')
    let bad := (nl.contains '[' && !nl.contains ']') ||
      (nl.contains ']' && !nl.contains '[')
    ⟨parts.1, String.mk nl, bad⟩
  | _ => ⟨parts.1, "", false⟩

/-- The link validation of `handle_link`:
`all([parsed.scheme in ('http', 'https'), parsed.netloc])`, with a
`ValueError` from urlparse counting as invalid (it is caught by the
surrounding `except ValueError`). -/
def link_valid (text : String) : Bool :=
  let p := urlparse text
  !p.valueError && (p.scheme == "http" || p.scheme == "https") &&
    p.netloc != ""

/-! ### Python float() -/

/-- Numeric value of a list of ASCII digits. -/
def digitsToNat (ds : List Char) : Nat :=
  ds.foldl (fun a c => 10 * a + (c.toNat - 48)) 0

/-- A digit or a PEP-515 group separator. -/
def isDigitOrUnderscore (c : Char) : Bool :=
  c.isDigit || c == '_'

/-- Tail of an underscored digit run: every underscore must be immediately
followed by a digit, and every other character must be a digit. -/
def underscoreDigitsTail : List Char → Bool
  | [] => true
  | '_' :: rest =>
    match rest with
    | c :: rest2 => c.isDigit && underscoreDigitsTail rest2
    | [] => false
  | c :: rest => c.isDigit && underscoreDigitsTail rest

/-- A valid PEP-515 digit group: nonempty, starts with a digit, underscores
only strictly between digits. -/
def validUnderscoreDigits : List Char → Bool
  | [] => false
  | c :: rest => c.isDigit && underscoreDigitsTail rest

/-- Numeric value of a digit group after removing the underscores. -/
def groupVal (l : List Char) : Nat :=
  digitsToNat (l.filter Char.isDigit)

/-- Number of digits of a digit group (underscores removed). -/
def groupLen (l : List Char) : Nat :=
  (l.filter Char.isDigit).length

/-- Parse an unsigned mantissa: digit groups (underscores allowed per
PEP 515) with an optional single decimal point, at least one digit in
total.  Returns the exact value and the unread rest. -/
def parseMantissa (cs : List Char) : Option (ℚ × List Char) :=
  let ip := cs.takeWhile isDigitOrUnderscore
  let r1 := cs.dropWhile isDigitOrUnderscore
  match r1 with
  | '.' :: r2 =>
    let fp := r2.takeWhile isDigitOrUnderscore
    let r3 := r2.dropWhile isDigitOrUnderscore
    if ip.isEmpty && fp.isEmpty then none
    else if (ip.isEmpty || validUnderscoreDigits ip) &&
        (fp.isEmpty || validUnderscoreDigits fp) then
      some ((groupVal ip : ℚ) + (groupVal fp : ℚ) / (10 : ℚ) ^ groupLen fp, r3)
    else none
  | _ =>
    if validUnderscoreDigits ip then some ((groupVal ip : ℚ), r1) else none

/-- Parse the optional exponent part (`e`/`E`, optional sign, digit group);
an empty rest means exponent `0`, anything else is a parse error. -/
def parseExponent : List Char → Option ℤ
  | [] => some 0
  | c :: rest =>
    if c == 'e' || c == 'E' then
      match rest with
      | '+' :: ds =>
        if validUnderscoreDigits ds then some (groupVal ds : ℤ) else none
      | '-' :: ds =>
        if validUnderscoreDigits ds then some (-(groupVal ds : ℤ)) else none
      | ds =>
        if validUnderscoreDigits ds then some (groupVal ds : ℤ) else none
    else none

/-- Python `float()` on a string: strip, optional sign, then either one of
the case-insensitive special literals `inf`/`infinity`/`nan`, or a numeric
literal (digit groups with PEP-515 underscores, optional decimal point,
optional exponent) whose exact decimal value is rounded to the nearest
binary64 value — underflowing to zero and overflowing to infinity like the
real conversion. -/
def pyFloat (s : String) : Option PyFloat :=
  let cs := pyStripList s.toList
  let signed : Bool × List Char :=
    match cs with
    | '+' :: r => (false, r)
    | '-' :: r => (true, r)
    | _ => (false, cs)
  let low := signed.2.map Char.toLower
  if low = ['i', 'n', 'f'] || low = ['i', 'n', 'f', 'i', 'n', 'i', 't', 'y'] then
    some (if signed.1 then PyFloat.ninf else PyFloat.inf)
  else if low = ['n', 'a', 'n'] then some PyFloat.nan
  else
    match parseMantissa signed.2 with
    | none => none
    | some (m, rest) =>
      match parseExponent rest with
      | none => none
      | some e =>
        let q : ℚ := m * (10 : ℚ) ^ e
        some (roundToDouble (if signed.1 then -q else q))

/-! ### Contact validation -/

/-- `BotHandlers._validate_contact`: if the input contains `@` it must split
into exactly two parts with a `.` in the part after the `@`; otherwise at
least 5 digit characters must remain after stripping non-digits.  Returns
the validity flag and the error message. -/
def validate_contact (contact0 : String) : Bool × String :=
  let contact := pyStrip contact0
  if contact.toList.contains '@' then
    let parts := pySplit contact '@'
    if parts.length == 2 && ((parts.getD 1 "").toList.contains '.') then
      (true, "")
    else (false, "Неверный формат email (пример: example@mail.com)")
  else
    let cleanPhone := contact.toList.filter Char.isDigit
    if cleanPhone.length ≥ 5 then (true, "")
    else (false, "Введите email или телефон (пример: +7 123 456 7890)")

/-! ### Conversation engine: states, replies, handlers -/

/-- The five conversation states (`class States` in bot.py). -/
inductive ConvState where
  | LINK
  | PRICE
  | SHIPPING
  | CONTACT
  | CONFIRMATION
  deriving DecidableEq, Repr

/-- What a handler callback hands back to the ConversationHandler:
a next state, `ConversationHandler.END`, `None` (keep the current state),
or an uncaught exception (the conversation state is then left unchanged
and the application error handler runs). -/
inductive HandlerResult where
  | toState (s : ConvState)
  | endConv
  | keep
  | raised
  deriving DecidableEq, Repr

/-- Outbound replies, abstracted to tags carrying the data the claims
mention. -/
inductive Reply where
  | helpText
  | healthy
  | cancelled
  | greetingAskLink
  | linkInvalid
  | linkAcceptedAskPrice
  | priceInvalid
  | priceTooHigh
  | shippingOptionsMsg (priceRub : PyFloat)
  | shippingChosen (method : String)
  | contactInvalid (message : String)
  | confirmOrderSummary
  | orderSuccess
  | smtpAuthFailed
  | smtpConnectFailed
  | internalError
  | orderCancelled
  | genericError
  deriving DecidableEq, Repr

/-- Output of a message/callback handler: the user data afterwards, the
replies sent, and what was returned to the ConversationHandler. -/
structure HOut where
  user : Option UserData
  replies : List Reply
  result : HandlerResult
  deriving DecidableEq, Repr

/-- `BotHandlers.handle_link`: strip, validate via urlparse, store the link
and go to PRICE, or re-prompt LINK.  A missing `user_data["user"]` entry
raises `KeyError` (after the validation, before any reply on the success
path). -/
def handle_link (uopt : Option UserData) (input : String) : HOut :=
  let text := pyStrip input
  if link_valid text then
    match uopt with
    | none => ⟨none, [], HandlerResult.raised⟩
    | some u =>
      ⟨some { u with link := some text }, [Reply.linkAcceptedAskPrice],
        HandlerResult.toState ConvState.PRICE⟩
  else ⟨uopt, [Reply.linkInvalid], HandlerResult.toState ConvState.LINK⟩

/-- `BotHandlers.handle_price` followed by `_show_shipping_options`:
parse `float(text.replace(",", "."))`; a parse failure or a
`price <= 0` re-prompts PRICE (`except ValueError`), `price > 1000000`
re-prompts PRICE with its own message; otherwise the price is stored and
the shipping options are shown with the computed RUB price.  The guards
use Python float comparisons, so NaN — for which both are `False` — slips
through and is stored. -/
def handle_price (cfg : Config) (uopt : Option UserData) (input : String) : HOut :=
  let text := pyStrip input
  match pyFloat (pyReplaceChar text ',' '.') with
  | none => ⟨uopt, [Reply.priceInvalid], HandlerResult.toState ConvState.PRICE⟩
  | some price =>
    if price.le (PyFloat.finite 0) then
      ⟨uopt, [Reply.priceInvalid], HandlerResult.toState ConvState.PRICE⟩
    else if (PyFloat.finite 1000000).lt price then
      ⟨uopt, [Reply.priceTooHigh], HandlerResult.toState ConvState.PRICE⟩
    else
      match uopt with
      | none => ⟨none, [], HandlerResult.raised⟩
      | some u =>
        let u' := { u with price_cny := some price }
        ⟨some u', [Reply.shippingOptionsMsg (u'.price_rub cfg)],
          HandlerResult.toState ConvState.SHIPPING⟩

/-- `BotHandlers.handle_shipping`: extract the key after `ship_`, store it
into `shipping_method`, then look it up in the catalog — an unknown key
raises `KeyError` only after the mutation. -/
def handle_shipping (uopt : Option UserData) (data : String) : HOut :=
  match uopt with
  | none => ⟨none, [], HandlerResult.raised⟩
  | some u =>
    let method := (pySplit data '_').getD 1 ""
    let u' := { u with shipping_method := some method }
    match shipping_options method with
    | some _ =>
      ⟨some u', [Reply.shippingChosen method], HandlerResult.toState ConvState.CONTACT⟩
    | none => ⟨some u', [], HandlerResult.raised⟩

/-- `BotHandlers.handle_contact` followed by `_confirm_order`: validate the
stripped contact, store it and render the order summary (which looks up the
stored shipping method in the catalog — raising `KeyError` when it is absent
or unknown), or re-prompt CONTACT with the validation message. -/
def handle_contact (uopt : Option UserData) (input : String) : HOut :=
  let contact := pyStrip input
  let v := validate_contact contact
  if v.1 then
    match uopt with
    | none => ⟨none, [], HandlerResult.raised⟩
    | some u =>
      let u' := { u with contact := some contact }
      match u'.shipping_method with
      | some m =>
        match shipping_options m with
        | some _ =>
          ⟨some u', [Reply.confirmOrderSummary],
            HandlerResult.toState ConvState.CONFIRMATION⟩
        | none => ⟨some u', [], HandlerResult.raised⟩
      | none => ⟨some u', [], HandlerResult.raised⟩
  else ⟨uopt, [Reply.contactInvalid v.2], HandlerResult.toState ConvState.CONTACT⟩

/-- Output of `handle_confirmation`: additionally counts how many times
`order_service.send_notification` was invoked. -/
structure ConfOut where
  user : Option UserData
  replies : List Reply
  result : HandlerResult
  dispatches : Nat
  deriving DecidableEq, Repr

/-- `BotHandlers.handle_confirmation`: lowercase the text; on `"да"` call
`send_notification(vars(user))` inside a `try` that catches
`SMTPAuthenticationError`, `SMTPConnectError` and any other `Exception`
(including the `KeyError`/`TypeError` raised when the user entry is missing
or the message template cannot be formatted); on anything else reply that
the order is cancelled.  Every path ends with `user_data.clear()` and
`ConversationHandler.END`. -/
def handle_confirmation (transport : Nat → Option SMTPError)
    (uopt : Option UserData) (input : String) : ConfOut :=
  if pyLower input = "да" then
    match uopt with
    | none => ⟨none, [Reply.internalError], HandlerResult.endConv, 0⟩
    | some u =>
      let composable :=
        u.price_cny.isSome &&
          (match u.shipping_method with
           | some m => (shipping_options m).isSome
           | none => false)
      if composable then
        match (send_notification transport 3).result with
        | SendOutcome.returned true =>
          ⟨none, [Reply.orderSuccess], HandlerResult.endConv, 1⟩
        | SendOutcome.returned false => ⟨none, [], HandlerResult.endConv, 1⟩
        | SendOutcome.raised SMTPError.auth =>
          ⟨none, [Reply.smtpAuthFailed], HandlerResult.endConv, 1⟩
        | SendOutcome.raised SMTPError.connect =>
          ⟨none, [Reply.smtpConnectFailed], HandlerResult.endConv, 1⟩
        | SendOutcome.raised (SMTPError.other _) =>
          ⟨none, [Reply.internalError], HandlerResult.endConv, 1⟩
      else ⟨none, [Reply.internalError], HandlerResult.endConv, 1⟩
  else ⟨none, [Reply.orderCancelled], HandlerResult.endConv, 0⟩

/-! ### The event router (`setup_handlers` plus the ConversationHandler
semantics of python-telegram-bot) -/

/-- An inbound update for one user: a `/command`, a plain text message, or
an inline-keyboard callback. -/
inductive Event where
  | cmd (name : String)
  | msg (text : String)
  | callback (data : String)
  deriving DecidableEq, Repr

/-- Per-user bot state: the active conversation state (`none` = no
conversation) and the `context.user_data["user"]` entry. -/
structure BotState where
  conv : Option ConvState
  user : Option UserData
  deriving DecidableEq, Repr

/-- One processed update: resulting state, replies sent (including the
error handler's generic reply), and dispatcher invocations. -/
structure StepOut where
  state : BotState
  replies : List Reply
  dispatches : Nat
  deriving DecidableEq, Repr

/-- Apply a handler's return value to the conversation state, as the
ConversationHandler does: an exception leaves the state unchanged. -/
def applyResult (b : BotState) (u' : Option UserData) (r : HandlerResult) :
    BotState :=
  { conv :=
      match r with
      | HandlerResult.toState s => some s
      | HandlerResult.endConv => none
      | HandlerResult.keep => b.conv
      | HandlerResult.raised => b.conv,
    user := u' }

/-- Lift a message-handler output to a step; when the handler raised, the
error handler replies with the generic error message (the update has a
`message`). -/
def stepOfMsg (b : BotState) (h : HOut) : StepOut :=
  match h.result with
  | HandlerResult.raised =>
    ⟨applyResult b h.user h.result, h.replies ++ [Reply.genericError], 0⟩
  | _ => ⟨applyResult b h.user h.result, h.replies, 0⟩

/-- Lift a callback-handler output to a step; when the handler raised, the
error handler sends nothing (`update.message` is `None` for callback
queries). -/
def stepOfCallback (b : BotState) (h : HOut) : StepOut :=
  ⟨applyResult b h.user h.result, h.replies, 0⟩

/-- `_init_conversation` builds this fresh `UserData`. -/
def freshUser (uid : ℤ) (uname : String) : UserData :=
  { user_id := uid, username := uname }

/-- An update no registered handler matches: ignored. -/
def noStep (b : BotState) : StepOut := ⟨b, [], 0⟩

/-- Does callback data match the `CallbackQueryHandler` pattern `^ship_`? -/
def shipPatternMatches (data : String) : Bool :=
  match data.toList with
  | 's' :: 'h' :: 'i' :: 'p' :: '_' :: _ => true
  | _ => false

/-- Does a text match the CONFIRMATION filter `filters.Regex("^(да|нет)$")`
(case-sensitive)? -/
def confirmPatternMatches (t : String) : Prop := t = "да" ∨ t = "нет"

instance (t : String) : Decidable (confirmPatternMatches t) := by
  unfold confirmPatternMatches
  infer_instance

/-- One update processed by the application built in `setup_handlers`:
the ConversationHandler (entry points `/start` and `/help` with
`allow_reentry=True`, per-state handlers with `/cancel` everywhere,
fallbacks `/cancel` and `/help`) is consulted first; the standalone
`/healthz` `CommandHandler` only runs when the ConversationHandler did not
handle the update — so its `ConversationHandler.END` return value is
discarded.  Uncaught handler exceptions leave the conversation state
unchanged and trigger the error handler. -/
def process (cfg : Config) (transport : Nat → Option SMTPError) (uid : ℤ)
    (uname : String) (b : BotState) (ev : Event) : StepOut :=
  match ev with
  | Event.cmd name =>
    if name = "start" then
      ⟨⟨some ConvState.LINK, some (freshUser uid uname)⟩,
        [Reply.greetingAskLink], 0⟩
    else if name = "help" then ⟨b, [Reply.helpText], 0⟩
    else if name = "cancel" then
      match b.conv with
      | some _ => ⟨⟨none, none⟩, [Reply.cancelled], 0⟩
      | none => noStep b
    else if name = "healthz" then ⟨b, [Reply.healthy], 0⟩
    else noStep b
  | Event.msg t =>
    match b.conv with
    | none => noStep b
    | some ConvState.LINK => stepOfMsg b (handle_link b.user t)
    | some ConvState.PRICE => stepOfMsg b (handle_price cfg b.user t)
    | some ConvState.SHIPPING => noStep b
    | some ConvState.CONTACT => stepOfMsg b (handle_contact b.user t)
    | some ConvState.CONFIRMATION =>
      if confirmPatternMatches t then
        let c := handle_confirmation transport b.user t
        ⟨applyResult b c.user c.result, c.replies, c.dispatches⟩
      else noStep b
  | Event.callback data =>
    match b.conv with
    | some ConvState.SHIPPING =>
      if shipPatternMatches data then stepOfCallback b (handle_shipping b.user data)
      else noStep b
    | _ => noStep b


end HanBot

namespace HanBot

/-! ## Claims -/

/-- C1: for every sequence of transport outcomes, `send_notification` with
3 retries attempts delivery at most 3 times: success on attempt `k`
(1 ≤ k ≤ 3) returns `True` after exactly `k` attempts, with the backoff
waits `2 ^ 0, …, 2 ^ (k - 2)` (1 before the second attempt, 2 before the
third); if all 3 attempts fail, the error of the final attempt is re-raised
after 3 attempts and waits 1 and 2; and the call never returns `False`. -/
theorem send_notification_retry_spec (ε : Type) (outcome : Nat → Option ε) :
    (∀ k : Nat, 1 ≤ k → k ≤ 3 →
        (∀ i, i < k - 1 → (outcome i).isSome) → outcome (k - 1) = none →
        send_notification outcome 3 =
          ⟨SendOutcome.returned true, k, (List.range (k - 1)).map fun i => 2 ^ i⟩) ∧
    (∀ e₀ e₁ e₂, outcome 0 = some e₀ → outcome 1 = some e₁ →
        outcome 2 = some e₂ →
        send_notification outcome 3 = ⟨SendOutcome.raised e₂, 3, [1, 2]⟩) ∧
    (send_notification outcome 3).result ≠ SendOutcome.returned false := by
  refine ⟨?_, ?_, ?_⟩
  · intro k hk1 hk3 hfail hsucc
    interval_cases k
    · simp only [Nat.sub_self] at hsucc
      simp [send_notification, sendLoop, hsucc]
    · obtain ⟨e0, he0⟩ := Option.isSome_iff_exists.mp (hfail 0 (by norm_num))
      norm_num at hsucc
      simp [send_notification, sendLoop, he0, hsucc, List.range_succ]
    · obtain ⟨e0, he0⟩ := Option.isSome_iff_exists.mp (hfail 0 (by norm_num))
      obtain ⟨e1, he1⟩ := Option.isSome_iff_exists.mp (hfail 1 (by norm_num))
      norm_num at hsucc
      simp [send_notification, sendLoop, he0, he1, hsucc, List.range_succ]
  · intro e₀ e₁ e₂ h0 h1 h2
    simp [send_notification, sendLoop, h0, h1, h2]
  · rcases h0 : outcome 0 with _ | e0
    · simp [send_notification, sendLoop, h0]
    · rcases h1 : outcome 1 with _ | e1
      · simp [send_notification, sendLoop, h0, h1]
      · rcases h2 : outcome 2 with _ | e2 <;>
          simp [send_notification, sendLoop, h0, h1, h2]

/-- Witness for C1: two transient failures then a success give `True` after
exactly 3 attempts with waits 1 and 2. -/
theorem send_notification_retry_spec_witness :
    send_notification (fun i => if i < 2 then some i else none) 3 =
      ⟨SendOutcome.returned true, 3, [1, 2]⟩ := by
  have h :=
    (send_notification_retry_spec Nat (fun i => if i < 2 then some i else none)).1
      3 (by norm_num) (by norm_num)
      (by intro i hi; norm_num at hi; interval_cases i <;> decide)
      (by decide)
  simpa [List.range_succ] using h

end HanBot

namespace HanBot

/-! ## Helper lemmas -/

/-- `str.strip()` on lists is idempotent. -/
theorem pyStripList_idem (l : List Char) :
    pyStripList (pyStripList l) = pyStripList l := by
  have hdrop : (pyStripList l).dropWhile Char.isWhitespace = pyStripList l := by
    rw [List.dropWhile_eq_self_iff]
    intro hl
    have hpre : pyStripList l <+: l.dropWhile Char.isWhitespace :=
      List.rdropWhile_prefix _ _
    have hA : 0 < (l.dropWhile Char.isWhitespace).length :=
      lt_of_lt_of_le hl hpre.length_le
    rw [List.get_eq_getElem, hpre.getElem hl, List.getElem_zero hA]
    simp [List.head_dropWhile_not]
  show ((pyStripList l).dropWhile Char.isWhitespace).rdropWhile Char.isWhitespace
      = pyStripList l
  rw [hdrop]
  exact List.rdropWhile_idempotent _ _

/-- `str.strip()` is idempotent. -/
theorem pyStrip_idem (s : String) : pyStrip (pyStrip s) = pyStrip s :=
  congrArg String.mk (pyStripList_idem s.toList)

/-- Amended acceptance condition of the CONTACT step, stated over the
stripped input: when it contains `@` it must split on `@` into exactly two
parts with a `.` in the part after the `@`; only when it contains no `@`
does the digit rule apply (at least 5 digit characters). -/
def contact_ok (t : String) : Bool :=
  if t.toList.contains '@' then
    (pySplit t '@').length == 2 && ((pySplit t '@').getD 1 "").toList.contains '.'
  else decide (5 ≤ (t.toList.filter Char.isDigit).length)

/-- The code's validation agrees with the amended condition on the stripped
input. -/
theorem validate_contact_eq (s : String) :
    (validate_contact s).1 = contact_ok (pyStrip s) := by
  unfold validate_contact contact_ok
  by_cases h : '@' ∈ (pyStrip s).data
  · by_cases h2 : (pySplit (pyStrip s) '@').length = 2 ∧
        '.' ∈ ((pySplit (pyStrip s) '@')[1]?.getD "").data
    · simp [h, h2]
      split <;> simp_all
    · simp [h, h2]
      intro hlen hdot
      exact h2 ⟨hlen, hdot⟩
  · by_cases h5 : 5 ≤ (List.filter Char.isDigit (pyStrip s).data).length
    · simp [h, h5]
    · simp [h, h5]

/-- `handle_contact` strips its input before validating, and
`_validate_contact` strips again; idempotence of strip aligns the two. -/
theorem handle_contact_accept_cond (input : String) :
    (validate_contact (pyStrip input)).1 = contact_ok (pyStrip input) := by
  rw [validate_contact_eq, pyStrip_idem]

end HanBot

namespace HanBot

/-- C2 counterexample: the input "12345@x" contains at least 5 digit
characters, so the claimed disjunction ("contains @ with a . in the domain
part OR at least 5 digits") accepts it; but the CONTACT step rejects it
(the phone rule is never consulted when the input contains `@`), re-prompts
CONTACT and stores nothing. -/
theorem contact_claim_counterexample :
    5 ≤ (("12345@x").toList.filter Char.isDigit).length ∧
    process ⟨PyFloat.finite 13⟩ (fun _ => none) 7 "alice"
        ⟨some ConvState.CONTACT,
          some ⟨7, "alice", some "https://e.com", some (PyFloat.finite 10), some "air", none⟩⟩
        (Event.msg "12345@x") =
      ⟨⟨some ConvState.CONTACT,
        some ⟨7, "alice", some "https://e.com", some (PyFloat.finite 10), some "air", none⟩⟩,
        [Reply.contactInvalid "Неверный формат email (пример: example@mail.com)"],
        0⟩ :=
  ⟨by decide, rfl⟩

/-- C2 (amended): the CONTACT step accepts an input iff its stripped form
satisfies: if it contains `@`, it splits on `@` into exactly two parts with
a `.` in the part after the `@`; otherwise it contains at least 5 digit
characters.  On acceptance (with a valid stored shipping method, as the
normal flow guarantees) the stripped contact is stored and the state moves
to CONFIRMATION; on rejection CONTACT is re-prompted with the validation
message and nothing changes. -/
theorem contact_step_spec (cfg : Config) (transport : Nat → Option SMTPError)
    (uid : ℤ) (uname : String) (u : UserData) (t : String) :
    (contact_ok (pyStrip t) = true →
      ∀ m : String, u.shipping_method = some m →
        (shipping_options m).isSome = true →
        process cfg transport uid uname ⟨some ConvState.CONTACT, some u⟩
            (Event.msg t) =
          ⟨⟨some ConvState.CONFIRMATION,
            some { u with contact := some (pyStrip t) }⟩,
            [Reply.confirmOrderSummary], 0⟩) ∧
    (contact_ok (pyStrip t) = false →
      process cfg transport uid uname ⟨some ConvState.CONTACT, some u⟩
          (Event.msg t) =
        ⟨⟨some ConvState.CONTACT, some u⟩,
          [Reply.contactInvalid (validate_contact (pyStrip t)).2], 0⟩) := by
  have hv := handle_contact_accept_cond t
  constructor
  · intro hc m hm hs
    obtain ⟨opt, hopt⟩ := Option.isSome_iff_exists.mp hs
    show stepOfMsg ⟨some ConvState.CONTACT, some u⟩ (handle_contact (some u) t) = _
    rw [hc] at hv
    simp [handle_contact, hv, hm, hopt, stepOfMsg, applyResult]
  · intro hc
    show stepOfMsg ⟨some ConvState.CONTACT, some u⟩ (handle_contact (some u) t) = _
    rw [hc] at hv
    simp [handle_contact, hv, stepOfMsg, applyResult]

/-- Witness for C2 (amended): a valid email is accepted at CONTACT and the
conversation reaches CONFIRMATION with the contact stored. -/
theorem contact_step_spec_witness :
    process ⟨PyFloat.finite 13⟩ (fun _ => none) 7 "alice"
        ⟨some ConvState.CONTACT,
          some ⟨7, "alice", some "https://e.com", some (PyFloat.finite 10), some "air", none⟩⟩
        (Event.msg "user@mail.com") =
      ⟨⟨some ConvState.CONFIRMATION,
        some ⟨7, "alice", some "https://e.com", some (PyFloat.finite 10), some "air",
          some "user@mail.com"⟩⟩,
        [Reply.confirmOrderSummary], 0⟩ :=
  (contact_step_spec ⟨PyFloat.finite 13⟩ (fun _ => none) 7 "alice"
      ⟨7, "alice", some "https://e.com", some (PyFloat.finite 10), some "air", none⟩
      "user@mail.com").1 (by decide) "air" rfl (by decide)

/-- C3 (code bug): the input "nan" is converted by `float()` to NaN, for
which both guards `price <= 0` and `price > 1000000` are `False` — so the
PRICE step accepts it, stores NaN as the price, computes a NaN rouble
price, and advances to SHIPPING, violating the claimed acceptance
condition `0 < p ≤ 1,000,000`. -/
theorem price_nan_accepted :
    process ⟨PyFloat.finite 13⟩ (fun _ => none) 7 "alice"
        ⟨some ConvState.PRICE,
          some ⟨7, "alice", some "https://e.com", none, none, none⟩⟩
        (Event.msg "nan") =
      ⟨⟨some ConvState.SHIPPING,
        some ⟨7, "alice", some "https://e.com", some PyFloat.nan, none, none⟩⟩,
        [Reply.shippingOptionsMsg PyFloat.nan], 0⟩ :=
  rfl

end HanBot

namespace HanBot

/-- Every path through `handle_confirmation` clears the user data and
returns `ConversationHandler.END`. -/
theorem handle_confirmation_ends (transport : Nat → Option SMTPError)
    (uopt : Option UserData) (t : String) :
    (handle_confirmation transport uopt t).user = none ∧
    (handle_confirmation transport uopt t).result = HandlerResult.endConv := by
  unfold handle_confirmation
  by_cases hda : pyLower t = "да"
  · cases uopt with
    | none => simp [hda]
    | some u =>
      simp only [hda, if_true]
      by_cases hc : (u.price_cny.isSome &&
          (match u.shipping_method with
           | some m => (shipping_options m).isSome
           | none => false)) = true
      · simp only [hc, if_true]
        rcases hr : (send_notification transport 3).result with b | e
        · cases b <;> simp [hr]
        · cases e <;> simp [hr]
      · simp [hc]
  · simp [hda]

/-- C4 (code bug): the CONFIRMATION filter `^(да|нет)$` is case-sensitive,
so the message "Да" — exactly what the bot's own confirmation keyboard
sends — matches no handler: it is silently ignored, nothing is dispatched,
no reply is sent and the conversation stays in CONFIRMATION; the lowercase
"да" on the other hand dispatches exactly once. -/
theorem confirmation_case_bug :
    process ⟨PyFloat.finite 13⟩ (fun _ => none) 7 "alice"
        ⟨some ConvState.CONFIRMATION,
          some ⟨7, "alice", some "https://e.com", some (PyFloat.finite 10), some "air", some "a@b.c"⟩⟩
        (Event.msg "Да") =
      ⟨⟨some ConvState.CONFIRMATION,
        some ⟨7, "alice", some "https://e.com", some (PyFloat.finite 10), some "air", some "a@b.c"⟩⟩,
        [], 0⟩ ∧
    (process ⟨PyFloat.finite 13⟩ (fun _ => none) 7 "alice"
        ⟨some ConvState.CONFIRMATION,
          some ⟨7, "alice", some "https://e.com", some (PyFloat.finite 10), some "air", some "a@b.c"⟩⟩
        (Event.msg "да")).dispatches = 1 :=
  ⟨rfl, rfl⟩

/-- C8: once the CONFIRMATION handler runs on an accepted token ("да" or
"нет"), the session is destroyed unconditionally — for every transport
behaviour (success, authentication error, connection error, other error)
and every session contents: the conversation ends and the user data is
cleared. -/
theorem confirmation_destroys_session (cfg : Config)
    (transport : Nat → Option SMTPError) (uid : ℤ) (uname : String)
    (u : Option UserData) (t : String) (h : t = "да" ∨ t = "нет") :
    (process cfg transport uid uname ⟨some ConvState.CONFIRMATION, u⟩
        (Event.msg t)).state = ⟨none, none⟩ := by
  have hd := handle_confirmation_ends transport u t
  have hpat : confirmPatternMatches t := h
  simp only [process]
  rw [if_pos hpat]
  show applyResult ⟨some ConvState.CONFIRMATION, u⟩
      (handle_confirmation transport u t).user
      (handle_confirmation transport u t).result = ⟨none, none⟩
  rw [hd.1, hd.2]
  rfl

/-- Witness for C8: declining with "нет" destroys the session. -/
theorem confirmation_destroys_session_witness :
    (process ⟨PyFloat.finite 13⟩ (fun _ => none) 7 "alice"
        ⟨some ConvState.CONFIRMATION,
          some ⟨7, "alice", some "https://e.com", some (PyFloat.finite 10), some "air", some "a@b.c"⟩⟩
        (Event.msg "нет")).state = ⟨none, none⟩ :=
  confirmation_destroys_session ⟨PyFloat.finite 13⟩ (fun _ => none) 7 "alice"
    (some ⟨7, "alice", some "https://e.com", some (PyFloat.finite 10), some "air", some "a@b.c"⟩)
    "нет" (Or.inr rfl)

/-- C5 counterexample: the forged selection `ship_boat` does not match a
known key, yet the SHIPPING handler stores `shippingMethod = "boat"` before
the catalog lookup raises — the session is mutated, no re-prompt is sent,
and the state stays SHIPPING. -/
theorem shipping_unknown_key_counterexample :
    process ⟨PyFloat.finite 13⟩ (fun _ => none) 7 "alice"
        ⟨some ConvState.SHIPPING,
          some ⟨7, "alice", some "https://e.com", some (PyFloat.finite 10), none, none⟩⟩
        (Event.callback "ship_boat") =
      ⟨⟨some ConvState.SHIPPING,
        some ⟨7, "alice", some "https://e.com", some (PyFloat.finite 10), some "boat", none⟩⟩,
        [], 0⟩ :=
  rfl

/-- C5 (amended): a selection with a known key stores it and moves to
CONTACT; a `ship_`-prefixed selection with an unknown key still stores the
unknown key into `shippingMethod`, then fails with a lookup error — the
state stays SHIPPING with no reply; callback data without the `ship_`
prefix is ignored entirely. -/
theorem shipping_step_spec (cfg : Config) (transport : Nat → Option SMTPError)
    (uid : ℤ) (uname : String) (u : UserData) (data : String) :
    (shipPatternMatches data = true →
      ∀ opt, shipping_options ((pySplit data '_').getD 1 "") = some opt →
        process cfg transport uid uname ⟨some ConvState.SHIPPING, some u⟩
            (Event.callback data) =
          ⟨⟨some ConvState.CONTACT,
            some { u with shipping_method := some ((pySplit data '_').getD 1 "") }⟩,
            [Reply.shippingChosen ((pySplit data '_').getD 1 "")], 0⟩) ∧
    (shipPatternMatches data = true →
      shipping_options ((pySplit data '_').getD 1 "") = none →
      process cfg transport uid uname ⟨some ConvState.SHIPPING, some u⟩
          (Event.callback data) =
        ⟨⟨some ConvState.SHIPPING,
          some { u with shipping_method := some ((pySplit data '_').getD 1 "") }⟩,
          [], 0⟩) ∧
    (shipPatternMatches data = false →
      process cfg transport uid uname ⟨some ConvState.SHIPPING, some u⟩
          (Event.callback data) = ⟨⟨some ConvState.SHIPPING, some u⟩, [], 0⟩) := by
  refine ⟨?_, ?_, ?_⟩
  · intro hpat opt hopt
    rw [List.getD_eq_getElem?_getD] at hopt
    simp [process, hpat, handle_shipping, hopt, stepOfCallback, applyResult]
  · intro hpat hopt
    rw [List.getD_eq_getElem?_getD] at hopt
    simp [process, hpat, handle_shipping, hopt, stepOfCallback, applyResult]
  · intro hpat
    simp [process, hpat, noStep]

/-- Witness for C5 (amended): selecting `ship_air` stores "air" and moves
to CONTACT. -/
theorem shipping_step_spec_witness :
    process ⟨PyFloat.finite 13⟩ (fun _ => none) 7 "alice"
        ⟨some ConvState.SHIPPING,
          some ⟨7, "alice", some "https://e.com", some (PyFloat.finite 10), none, none⟩⟩
        (Event.callback "ship_air") =
      ⟨⟨some ConvState.CONTACT,
        some ⟨7, "alice", some "https://e.com", some (PyFloat.finite 10), some "air", none⟩⟩,
        [Reply.shippingChosen "air"], 0⟩ :=
  (shipping_step_spec ⟨PyFloat.finite 13⟩ (fun _ => none) 7 "alice"
      ⟨7, "alice", some "https://e.com", some (PyFloat.finite 10), none, none⟩ "ship_air").1
    rfl ⟨1300, "12-15", "Авиа"⟩ rfl

/-- C6: the `/cancel` command, registered in every conversation state (and
as a fallback), destroys the session — for every state and every session
contents the conversation ends, the user data is cleared, and the terminal
cancellation reply is sent. -/
theorem cancel_destroys_session (cfg : Config)
    (transport : Nat → Option SMTPError) (uid : ℤ) (uname : String)
    (s : ConvState) (u : Option UserData) :
    process cfg transport uid uname ⟨some s, u⟩ (Event.cmd "cancel") =
      ⟨⟨none, none⟩, [Reply.cancelled], 0⟩ :=
  rfl

/-- C10: `/start` — an entry point with `allow_reentry=True`, so it also
fires mid-conversation — always clears the collected data and creates a
fresh session holding only the user id and display name, moving to LINK. -/
theorem start_resets_session (cfg : Config)
    (transport : Nat → Option SMTPError) (uid : ℤ) (uname : String)
    (b : BotState) :
    process cfg transport uid uname b (Event.cmd "start") =
      ⟨⟨some ConvState.LINK, some ⟨uid, uname, none, none, none, none⟩⟩,
        [Reply.greetingAskLink], 0⟩ :=
  rfl

/-- C9 counterexample: with a conversation mid-flight at PRICE, `/healthz`
replies with the fixed healthy message but the conversation survives — the
session is not removed, contradicting the claim that the health check ends
the active conversation. -/
theorem healthz_counterexample :
    process ⟨PyFloat.finite 13⟩ (fun _ => none) 7 "alice"
        ⟨some ConvState.PRICE, some ⟨7, "alice", some "https://e.com", none, none, none⟩⟩
        (Event.cmd "healthz") =
      ⟨⟨some ConvState.PRICE, some ⟨7, "alice", some "https://e.com", none, none, none⟩⟩,
        [Reply.healthy], 0⟩ :=
  rfl

/-- C9 (amended): `/healthz` replies with the fixed healthy message and
leaves the bot state — conversation state and session data — completely
unchanged: the handler is registered outside the ConversationHandler, so
its `ConversationHandler.END` return value is discarded. -/
theorem healthz_preserves_session (cfg : Config)
    (transport : Nat → Option SMTPError) (uid : ℤ) (uname : String)
    (b : BotState) :
    process cfg transport uid uname b (Event.cmd "healthz") =
      ⟨b, [Reply.healthy], 0⟩ :=
  rfl

end HanBot

namespace HanBot

/-- Is the text `t` rejected at state `s`?  For LINK, PRICE and CONTACT
this is the code's validation (at PRICE with Python float comparison
semantics, so a parsed NaN counts as accepted and an underflowed-to-zero
literal as rejected); at SHIPPING no text message is consumed at all (the
state listens only to callbacks), and at CONFIRMATION a text the
case-sensitive filter does not match is unconsumed. -/
def rejectedInput (s : ConvState) (t : String) : Bool :=
  match s with
  | ConvState.LINK => !link_valid (pyStrip t)
  | ConvState.PRICE =>
    match pyFloat (pyReplaceChar (pyStrip t) ',' '.') with
    | none => true
    | some p => p.le (PyFloat.finite 0) || (PyFloat.finite 1000000).lt p
  | ConvState.SHIPPING => true
  | ConvState.CONTACT => !(validate_contact (pyStrip t)).1
  | ConvState.CONFIRMATION => !decide (confirmPatternMatches t)

/-- A single rejected text input leaves the conversation state and the
session data unchanged. -/
theorem rejected_step (cfg : Config) (transport : Nat → Option SMTPError)
    (uid : ℤ) (uname : String) (s : ConvState) (u : Option UserData)
    (t : String) (h : rejectedInput s t = true) :
    (process cfg transport uid uname ⟨some s, u⟩ (Event.msg t)).state =
      ⟨some s, u⟩ := by
  cases s
  case LINK =>
    show (stepOfMsg ⟨some ConvState.LINK, u⟩ (handle_link u t)).state = _
    simp only [rejectedInput, Bool.not_eq_true'] at h
    simp [handle_link, h, stepOfMsg, applyResult]
  case PRICE =>
    show (stepOfMsg ⟨some ConvState.PRICE, u⟩ (handle_price cfg u t)).state = _
    simp only [rejectedInput] at h
    rcases hp : pyFloat (pyReplaceChar (pyStrip t) ',' '.') with _ | p
    · simp [handle_price, hp, stepOfMsg, applyResult]
    · rw [hp] at h
      simp only [Bool.or_eq_true] at h
      by_cases h0 : p.le (PyFloat.finite 0) = true
      · simp [handle_price, hp, h0, stepOfMsg, applyResult]
      · have h1 : (PyFloat.finite 1000000).lt p = true := by
          rcases h with h | h
          · exact absurd h h0
          · exact h
        simp [handle_price, hp, h0, h1, stepOfMsg, applyResult]
  case SHIPPING => rfl
  case CONTACT =>
    show (stepOfMsg ⟨some ConvState.CONTACT, u⟩ (handle_contact u t)).state = _
    simp only [rejectedInput, Bool.not_eq_true'] at h
    simp [handle_contact, h, stepOfMsg, applyResult]
  case CONFIRMATION =>
    simp only [rejectedInput, Bool.not_eq_true', decide_eq_false_iff_not] at h
    simp [process, h, noStep]

/-- C7 (amended): for every state and every sequence of text inputs each
rejected by that state's validation, processing them all leaves the
conversation state and every stored session field unchanged.  (The original
claim fails for SHIPPING selections: a forged `ship_`-prefixed callback
with an unknown key mutates `shippingMethod` before failing.) -/
theorem rejected_inputs_frame (cfg : Config) (transport : Nat → Option SMTPError)
    (uid : ℤ) (uname : String) (s : ConvState) (u : Option UserData)
    (ts : List String) (h : ∀ t ∈ ts, rejectedInput s t = true) :
    ts.foldl (fun b t => (process cfg transport uid uname b (Event.msg t)).state)
        ⟨some s, u⟩ = ⟨some s, u⟩ := by
  induction ts with
  | nil => rfl
  | cons t ts ih =>
    rw [List.foldl_cons,
      rejected_step cfg transport uid uname s u t (h t (List.mem_cons_self t ts))]
    exact ih fun x hx => h x (List.mem_cons_of_mem t hx)

/-- Witness for C7 (amended): two invalid links in a row leave the LINK
state and the fresh session untouched. -/
theorem rejected_inputs_frame_witness :
    ["not a url", "ftp://example.com"].foldl
        (fun b t => (process ⟨PyFloat.finite 13⟩ (fun _ => none) 7 "alice" b (Event.msg t)).state)
        ⟨some ConvState.LINK, some ⟨7, "alice", none, none, none, none⟩⟩ =
      ⟨some ConvState.LINK, some ⟨7, "alice", none, none, none, none⟩⟩ :=
  rejected_inputs_frame ⟨PyFloat.finite 13⟩ (fun _ => none) 7 "alice" ConvState.LINK
    (some ⟨7, "alice", none, none, none, none⟩) ["not a url", "ftp://example.com"]
    (by decide)

/-- C7 counterexample: at SHIPPING, the selection `ship_sea` is rejected by
the state's validation (no known key matches), yet the handler mutates the
stored `shippingMethod` to "sea" — repeated invalid input does not leave
already-stored fields unchanged. -/
theorem repeated_invalid_mutates_counterexample :
    (process ⟨PyFloat.finite 13⟩ (fun _ => none) 9 "bob"
        ⟨some ConvState.SHIPPING,
          some ⟨9, "bob", some "http://x.cn/item", some (PyFloat.finite 5), none, none⟩⟩
        (Event.callback "ship_sea")).state.user =
      some ⟨9, "bob", some "http://x.cn/item", some (PyFloat.finite 5), some "sea", none⟩ :=
  rfl

end HanBot
